import Mathlib

/-!
# TeslaChargerPlacement: marker click scripts and the ownership lookup panel

A shallow embedding of

* `src/backend/marker_click.js`: the readiness poll, the wiring pass over the
  map's layers and the click handler that toggles a marker's icon colour;
* `src/marker_click.js`: the click handler that sets one fixed green icon;
* `src/frontend/MapComponent.js`: `fetchOwnership` and the popup rendering.

Leaflet, Leaflet.AwesomeMarkers, React and axios are collaborators outside the
repository.  What the scripts use of them is modelled directly:
`Marker.setIcon` stores the icon in `options.icon`, `L.AwesomeMarkers.icon` and
`L.icon` build an icon object around the options they are given, `eachLayer`
visits every layer of the map once, `layer.on` adds one listener, `useState`
holds the last value passed to its setter.
-/

namespace TeslaChargerPlacement

/-! ## Data model of the marker scripts -/

/-- A JavaScript primitive, as much of it as an option field of an icon can hold. -/
inductive JsVal where
  | undefined
  | null
  | bool (b : Bool)
  | num (n : Int)
  | str (s : String)
  deriving DecidableEq, Repr

/-- The options object of a Leaflet icon.  A property that is not set reads as
`undefined`.  The field `pfx` is the property `prefix` of the source. -/
structure IconOptions where
  icon : JsVal
  markerColor : JsVal
  pfx : JsVal
  iconUrl : JsVal
  iconSize : Option (Int × Int)
  iconAnchor : Option (Int × Int)
  popupAnchor : Option (Int × Int)
  deriving DecidableEq, Repr

/-- A Leaflet icon object: it always carries an `options` object. -/
structure Icon where
  options : IconOptions
  deriving DecidableEq, Repr

/-- The value of `layer.options.icon`: `undefined`, `null` or an icon object. -/
inductive IconVal where
  | undefined
  | null
  | obj (i : Icon)
  deriving DecidableEq, Repr

/-- JavaScript truthiness of the value of `layer.options.icon`. -/
def IconVal.truthy : IconVal → Bool
  | .undefined => false
  | .null => false
  | .obj _ => true

/-- The options of a marker layer. -/
structure MarkerOptions where
  icon : IconVal
  deriving DecidableEq, Repr

/-- A marker layer (`L.Marker`). -/
structure Marker where
  options : MarkerOptions
  deriving DecidableEq, Repr

/-- Leaflet's `marker.setIcon(icon)`: stores the icon in `options.icon`. -/
def Marker.setIcon (layer : Marker) (icon : Icon) : Marker :=
  { layer with options := { layer.options with icon := .obj icon } }

/-- What a click handler does besides returning: console output and `setIcon` calls. -/
inductive Effect where
  | consoleLog (msg : String)
  | consoleError (msg : String)
  | setIcon (icon : Icon)
  deriving DecidableEq, Repr

/-- Whether an effect is a call of `setIcon`. -/
def Effect.isSetIcon : Effect → Bool
  | .setIcon _ => true
  | _ => false

/-- The colour of a marker's icon: `options.icon.options.markerColor`, and
`undefined` when the marker has no icon object. -/
def Marker.markerColor (layer : Marker) : JsVal :=
  match layer.options.icon with
  | .obj i => i.options.markerColor
  | _ => .undefined

/-! ## `src/backend/marker_click.js`: the toggling click handler -/

/-- `L.AwesomeMarkers.icon({icon, markerColor, prefix})`: an icon object whose
options hold the three given properties. -/
def awesomeMarkersIcon (icon markerColor pfx : JsVal) : Icon :=
  { options :=
      { icon := icon, markerColor := markerColor, pfx := pfx,
        iconUrl := .undefined, iconSize := none, iconAnchor := none,
        popupAnchor := none } }

/-- Line 23: `currentIcon.options.markerColor === "red" ? "green" : "red"`. -/
def newColor (currentIcon : Icon) : String :=
  if currentIcon.options.markerColor = .str "red" then "green" else "red"

/-- Lines 13-34: the handler registered with `layer.on("click", ...)`.  It returns
the marker after the click and the effects of the click, in order. -/
def clickHandler (layer : Marker) : Marker × List Effect :=
  match layer.options.icon with
  | .undefined => (layer, [.consoleError "Marker icon is undefined:"])
  | .null => (layer, [.consoleError "Marker icon is undefined:"])
  | .obj currentIcon =>
    let newIcon := awesomeMarkersIcon (.str "info-sign") (.str (newColor currentIcon))
      (.str "glyphicon")
    (layer.setIcon newIcon,
      [.setIcon newIcon,
        .consoleLog ("Marker clicked, color changed to: " ++ newColor currentIcon)])

/-- The marker after `n` clicks. -/
def clicks : Nat → Marker → Marker
  | 0, layer => layer
  | n + 1, layer => clicks n (clickHandler layer).1

/-! ## `src/backend/marker_click.js`: the readiness poll and the wiring pass -/

/-- A layer of the map: its Leaflet id and whether `layer instanceof L.Marker`. -/
structure Layer where
  id : Nat
  isMarker : Bool
  deriving DecidableEq, Repr

/-- A Leaflet map: the layers that `eachLayer` visits, in the order of the visit. -/
structure LeafletMap where
  layers : List Layer
  deriving DecidableEq, Repr

/-- The global `myMap` at one instant: not defined, `null`, or a map instance. -/
inductive MyMap where
  | undefined
  | null
  | inst (m : LeafletMap)
  deriving DecidableEq, Repr

/-- Line 5: `typeof myMap !== "undefined" && myMap`. -/
def MyMap.available : MyMap → Bool
  | .undefined => false
  | .null => false
  | .inst _ => true

/-- The state of the page that the poll acts on. -/
structure WaiterState where
  /-- Whether `checkMapInterval` is still scheduled. -/
  intervalActive : Bool
  /-- How many times `myMap.eachLayer` has been run. -/
  wiringPasses : Nat
  /-- The ids of the layers on which `on("click", ...)` was called, one entry per call. -/
  listeners : List Nat
  deriving DecidableEq, Repr

/-- The state when `setInterval` has just been called. -/
def WaiterState.init : WaiterState :=
  { intervalActive := true, wiringPasses := 0, listeners := [] }

/-- Lines 9-36: `myMap.eachLayer`, the ids of the layers that get a click listener. -/
def wire (m : LeafletMap) : List Nat :=
  (m.layers.filter fun layer => layer.isMarker).map fun layer => layer.id

/-- Lines 4-38: one tick of the interval, with the value of `myMap` at that tick.
A cleared interval does not call back. -/
def tick (s : WaiterState) (myMap : MyMap) : WaiterState :=
  if s.intervalActive then
    match myMap with
    | .inst m =>
      { intervalActive := false, wiringPasses := s.wiringPasses + 1,
        listeners := s.listeners ++ wire m }
    | .undefined => s
    | .null => s
  else s

/-- The state after the ticks `0, ..., n - 1`, where `env t` is `myMap` at tick `t`. -/
def runTicks (env : Nat → MyMap) : Nat → WaiterState
  | 0 => WaiterState.init
  | n + 1 => tick (runTicks env n) (env n)

/-! ## `src/marker_click.js`: the single-shot colorer -/

/-- `L.icon({iconUrl, iconSize, iconAnchor, popupAnchor})`: an icon object whose
options hold the four given properties. -/
def leafletIcon (iconUrl : String) (iconSize iconAnchor popupAnchor : Int × Int) : Icon :=
  { options :=
      { icon := .undefined, markerColor := .undefined, pfx := .undefined,
        iconUrl := .str iconUrl, iconSize := some iconSize, iconAnchor := some iconAnchor,
        popupAnchor := some popupAnchor } }

/-- Lines 3-8: `greenIcon`. -/
def greenIcon : Icon :=
  leafletIcon "http://maps.google.com/mapfiles/ms/icons/green-dot.png" (32, 32) (16, 32) (0, -32)

/-- Lines 14-16: the handler registered with `layer.on('click', ...)`; `this` is the
marker that was clicked. -/
def greenClickHandler (this : Marker) : Marker × List Effect :=
  (this.setIcon greenIcon, [.setIcon greenIcon])

/-- The marker after `n` clicks handled by `greenClickHandler`. -/
def greenClicks : Nat → Marker → Marker
  | 0, layer => layer
  | n + 1, layer => greenClicks n (greenClickHandler layer).1

/-! ## `src/frontend/MapComponent.js` -/

/-- An input lot `{name, lat, lon}`.  `Coord` is the type of the coordinates. -/
structure ParkingLot (Coord : Type) where
  name : String
  lat : Coord
  lon : Coord
  deriving DecidableEq, Repr

/-- The body of a response of `/get-ownership`, of shape `{ owner?: string }`. -/
structure OwnershipRecord where
  owner : Option String
  deriving DecidableEq, Repr

/-- The `ownership` state: an object with string keys, as its list of entries. -/
abbrev Ownership := List (String × OwnershipRecord)

/-- The template literal with `lat` and `lon` separated by a comma, the key of a lot.
`toStr` is the conversion of a coordinate to a string that the template applies. -/
def ownershipKey {Coord : Type} (toStr : Coord → String) (lat lon : Coord) : String :=
  toStr lat ++ "," ++ toStr lon

/-- Line 9: the URL of the request. -/
def requestUrl {Coord : Type} (toStr : Coord → String) (lat lon : Coord) : String :=
  "http://127.0.0.1:5000/get-ownership?lat=" ++ toStr lat ++ "&lon=" ++ toStr lon

/-- How the promise of `axios.get` settles. -/
inductive AxiosReply where
  | fulfilled (data : OwnershipRecord)
  | rejected (reason : String)
  deriving DecidableEq, Repr

/-- One run of `fetchOwnership`: the arguments of its calls of `setOwnership`, in
order, and whether its own promise was rejected. -/
structure FetchRun where
  setOwnershipCalls : List Ownership
  rejection : Option String
  deriving DecidableEq, Repr

/-- Lines 8-11: `fetchOwnership`, where `get url` is how `axios.get(url)` settles. -/
def fetchOwnership {Coord : Type} (toStr : Coord → String) (get : String → AxiosReply)
    (lat lon : Coord) : FetchRun :=
  match get (requestUrl toStr lat lon) with
  | .fulfilled data =>
    { setOwnershipCalls := [[(ownershipKey toStr lat lon, data)]], rejection := none }
  | .rejected reason => { setOwnershipCalls := [], rejection := some reason }

/-- The `ownership` state after a run: `useState` holds the last value given to
the setter, and the value it had when the setter was not called. -/
def ownershipAfter (ownership : Ownership) (run : FetchRun) : Ownership :=
  run.setOwnershipCalls.foldl (fun _ next => next) ownership

/-- JavaScript `owner || dflt` on an optional string: `undefined` and the empty
string are falsy. -/
def orDefault (owner : Option String) (dflt : String) : String :=
  match owner with
  | none => dflt
  | some s => if s = "" then dflt else s

/-- Lines 21-23: the text of the owner paragraph of a lot's popup, `none` when the
paragraph is not rendered. -/
def ownerLine {Coord : Type} (toStr : Coord → String) (ownership : Ownership)
    (lot : ParkingLot Coord) : Option String :=
  match ownership.lookup (ownershipKey toStr lot.lat lot.lon) with
  | some record => some ("Owner: " ++ orDefault record.owner "Unknown")
  | none => none

/-- What a popup shows: the lot's name, the button and the owner paragraph. -/
structure PopupView where
  name : String
  button : String
  ownerLine : Option String
  deriving DecidableEq, Repr

/-- Lines 16-26: the popups of the markers, one per lot, in the order of the lots. -/
def MapComponent {Coord : Type} (toStr : Coord → String) (parkingLots : List (ParkingLot Coord))
    (ownership : Ownership) : List PopupView :=
  parkingLots.map fun lot =>
    { name := lot.name, button := "Who Owns This?", ownerLine := ownerLine toStr ownership lot }

/-! ## Example inputs -/

/-- An AwesomeMarkers icon of colour blue, the default colour of that library. -/
def blueIcon : Icon :=
  awesomeMarkersIcon (.str "home") (.str "blue") (.str "glyphicon")

/-- A marker that shows `blueIcon`. -/
def blueMarker : Marker := { options := { icon := .obj blueIcon } }

/-- A marker that shows a red AwesomeMarkers icon. -/
def redMarker : Marker :=
  { options := { icon := .obj (awesomeMarkersIcon (.str "home") (.str "red") (.str "glyphicon")) } }

/-- A marker whose `options.icon` is `undefined`. -/
def bareMarker : Marker := { options := { icon := .undefined } }

/-- A run of the poll used as an example: `myMap` is undefined at ticks 0 and 1, is
a map with the markers 1 and 3 and the tile layer 2 at tick 2, and has one more
marker, 4, from tick 3 on. -/
def exampleEnv : Nat → MyMap
  | 0 => .undefined
  | 1 => .null
  | 2 => .inst { layers := [⟨1, true⟩, ⟨2, false⟩, ⟨3, true⟩] }
  | _ => .inst { layers := [⟨1, true⟩, ⟨2, false⟩, ⟨3, true⟩, ⟨4, true⟩] }

/-- The conversion of an integer coordinate by a template literal: its decimal digits. -/
def intToStr (n : Int) : String := toString n

/-- Two lots of different names at the same coordinates. -/
def lotA : ParkingLot Int := { name := "Lot A", lat := 34, lon := -118 }

/-- The second lot at the coordinates of `lotA`. -/
def lotB : ParkingLot Int := { name := "Lot B", lat := 34, lon := -118 }

/-- A lot at other coordinates. -/
def lotC : ParkingLot Int := { name := "Lot C", lat := 40, lon := -74 }

/-- A server that answers every request with the given body. -/
def replyWith (data : OwnershipRecord) : String → AxiosReply := fun _ => .fulfilled data

/-- A server whose every request fails. -/
def replyFailure : String → AxiosReply := fun _ => .rejected "Network Error"

/-! # Theorems -/

/-! ## The toggling click handler -/

/-- The handler on a marker with an icon object, unfolded. -/
theorem clickHandler_obj (layer : Marker) (currentIcon : Icon)
    (h : layer.options.icon = .obj currentIcon) :
    clickHandler layer =
      (layer.setIcon (awesomeMarkersIcon (.str "info-sign") (.str (newColor currentIcon))
          (.str "glyphicon")),
        [.setIcon (awesomeMarkersIcon (.str "info-sign") (.str (newColor currentIcon))
            (.str "glyphicon")),
          .consoleLog ("Marker clicked, color changed to: " ++ newColor currentIcon)]) := by
  unfold clickHandler
  rw [h]

/-- The handler on a marker whose `options.icon` is falsy, unfolded. -/
theorem clickHandler_falsy (layer : Marker) (h : layer.options.icon.truthy = false) :
    clickHandler layer = (layer, [.consoleError "Marker icon is undefined:"]) := by
  unfold clickHandler
  cases hi : layer.options.icon with
  | undefined => rfl
  | null => rfl
  | obj i => rw [hi] at h; simp [IconVal.truthy] at h

/-- The colour after one click on a marker with an icon object. -/
theorem markerColor_clickHandler (layer : Marker) (currentIcon : Icon)
    (h : layer.options.icon = .obj currentIcon) :
    (clickHandler layer).1.markerColor = .str (newColor currentIcon) := by
  rw [clickHandler_obj layer currentIcon h]
  rfl

/-- The new colour is one of the two colours. -/
theorem newColor_mem (currentIcon : Icon) :
    newColor currentIcon = "red" ∨ newColor currentIcon = "green" := by
  unfold newColor
  split
  · exact Or.inr rfl
  · exact Or.inl rfl

/-- A marker with an icon object keeps having one under clicks, and from the first
click on its colour is red or green. -/
theorem clicks_succ_colour (n : Nat) (layer : Marker) (currentIcon : Icon)
    (h : layer.options.icon = .obj currentIcon) :
    (∃ i, (clicks (n + 1) layer).options.icon = .obj i) ∧
      ((clicks (n + 1) layer).markerColor = .str "red" ∨
        (clicks (n + 1) layer).markerColor = .str "green") := by
  induction n generalizing layer currentIcon with
  | zero =>
    refine ⟨?_, ?_⟩
    · simp only [clicks]
      rw [clickHandler_obj layer currentIcon h]
      exact ⟨_, rfl⟩
    · simp only [clicks]
      rw [markerColor_clickHandler layer currentIcon h]
      rcases newColor_mem currentIcon with hc | hc
      · exact Or.inl (by rw [hc])
      · exact Or.inr (by rw [hc])
  | succ n ih =>
    have hstep : (clickHandler layer).1.options.icon =
        .obj (awesomeMarkersIcon (.str "info-sign") (.str (newColor currentIcon))
          (.str "glyphicon")) := by
      rw [clickHandler_obj layer currentIcon h]
      rfl
    have := ih (clickHandler layer).1 _ hstep
    simpa only [clicks] using this

/-- Claim C1, as amended: for every marker whose icon is defined and whose
markerColor is "red" or "green", two clicks of the toggling handler leave the
marker's markerColor equal to the colour it had before the first click. -/
theorem toggle_twice_restores_colour (layer : Marker) (currentIcon : Icon)
    (h : layer.options.icon = .obj currentIcon)
    (hc : layer.markerColor = .str "red" ∨ layer.markerColor = .str "green") :
    (clicks 2 layer).markerColor = layer.markerColor := by
  have hm : layer.markerColor = currentIcon.options.markerColor := by
    unfold Marker.markerColor
    rw [h]
  have h1 : (clickHandler layer).1.options.icon =
      .obj (awesomeMarkersIcon (.str "info-sign") (.str (newColor currentIcon))
        (.str "glyphicon")) := by
    rw [clickHandler_obj layer currentIcon h]
    rfl
  simp only [clicks]
  rw [markerColor_clickHandler _ _ h1, hm]
  rw [hm] at hc
  rcases hc with hc | hc
  · simp [newColor, awesomeMarkersIcon, hc]
  · simp [newColor, awesomeMarkersIcon, hc]

/-- Instance at a red marker: two clicks give red again. -/
theorem toggle_twice_restores_colour_witness :
    redMarker.markerColor = .str "red" ∧ (clicks 2 redMarker).markerColor = redMarker.markerColor :=
  ⟨rfl, toggle_twice_restores_colour redMarker _ rfl (Or.inl rfl)⟩

/-- Two clicks do not restore every colour: the blue marker has a defined icon, and after two
clicks its markerColor is "green", not the "blue" it had before the first click. -/
theorem toggle_twice_blue_not_restored :
    blueMarker.options.icon = .obj blueIcon ∧
      blueMarker.markerColor = .str "blue" ∧
      (clicks 2 blueMarker).markerColor = .str "green" ∧
      (clicks 2 blueMarker).markerColor ≠ blueMarker.markerColor := by
  refine ⟨rfl, rfl, ?_, ?_⟩
  · simp [clicks, clickHandler, blueMarker, blueIcon, Marker.setIcon, Marker.markerColor,
      newColor, awesomeMarkersIcon]
  · simp [clicks, clickHandler, blueMarker, blueIcon, Marker.setIcon, Marker.markerColor,
      newColor, awesomeMarkersIcon]

/-- Claim C2: for every marker whose icon is defined, one click of the toggling
handler calls `setIcon` with, and leaves in `options.icon`, a new descriptor whose
icon is "info-sign", whose prefix is "glyphicon" and whose markerColor is "green"
when the current markerColor is exactly the string "red" and "red" for every other
current value, an absent markerColor included. -/
theorem click_replaces_icon (layer : Marker) (currentIcon : Icon)
    (h : layer.options.icon = .obj currentIcon) :
    ∃ newIcon : Icon,
      (clickHandler layer).1.options.icon = .obj newIcon ∧
      Effect.setIcon newIcon ∈ (clickHandler layer).2 ∧
      newIcon = awesomeMarkersIcon (.str "info-sign") newIcon.options.markerColor
        (.str "glyphicon") ∧
      newIcon.options.icon = .str "info-sign" ∧
      newIcon.options.pfx = .str "glyphicon" ∧
      (currentIcon.options.markerColor = .str "red" →
        newIcon.options.markerColor = .str "green") ∧
      (currentIcon.options.markerColor ≠ .str "red" →
        newIcon.options.markerColor = .str "red") ∧
      (currentIcon.options.markerColor = .undefined →
        newIcon.options.markerColor = .str "red") := by
  refine ⟨awesomeMarkersIcon (.str "info-sign") (.str (newColor currentIcon))
    (.str "glyphicon"), ?_, ?_, rfl, rfl, rfl, ?_, ?_, ?_⟩
  · rw [clickHandler_obj layer currentIcon h]
    rfl
  · rw [clickHandler_obj layer currentIcon h]
    simp
  · intro hc
    simp [awesomeMarkersIcon, newColor, hc]
  · intro hc
    simp [awesomeMarkersIcon, newColor, hc]
  · intro hc
    simp [awesomeMarkersIcon, newColor, hc]

/-- Instance at the blue marker: one click gives a red "info-sign" icon. -/
theorem click_replaces_icon_witness :
    ∃ newIcon : Icon,
      (clickHandler blueMarker).1.options.icon = .obj newIcon ∧
      Effect.setIcon newIcon ∈ (clickHandler blueMarker).2 ∧
      newIcon = awesomeMarkersIcon (.str "info-sign") newIcon.options.markerColor
        (.str "glyphicon") ∧
      newIcon.options.icon = .str "info-sign" ∧
      newIcon.options.pfx = .str "glyphicon" ∧
      (blueIcon.options.markerColor = .str "red" →
        newIcon.options.markerColor = .str "green") ∧
      (blueIcon.options.markerColor ≠ .str "red" →
        newIcon.options.markerColor = .str "red") ∧
      (blueIcon.options.markerColor = .undefined →
        newIcon.options.markerColor = .str "red") :=
  click_replaces_icon blueMarker blueIcon rfl

/-- Claim C3: for every marker whose current icon is absent (`undefined` or `null`,
the falsy values of `options.icon`), a click of the toggling handler returns, makes
no call of `setIcon` (its only effect is one `console.error`) and leaves the marker,
its icon option included, as it was. -/
theorem click_without_icon_is_noop (layer : Marker)
    (h : layer.options.icon.truthy = false) :
    (clickHandler layer).1 = layer ∧
      (clickHandler layer).1.options.icon = layer.options.icon ∧
      (∀ e ∈ (clickHandler layer).2, e.isSetIcon = false) ∧
      (clickHandler layer).2 = [.consoleError "Marker icon is undefined:"] := by
  rw [clickHandler_falsy layer h]
  simp [Effect.isSetIcon]

/-- Instance at a marker whose icon is `undefined`. -/
theorem click_without_icon_is_noop_witness :
    bareMarker.options.icon.truthy = false ∧ (clickHandler bareMarker).1 = bareMarker ∧
      (clickHandler bareMarker).1.options.icon = bareMarker.options.icon ∧
      (∀ e ∈ (clickHandler bareMarker).2, e.isSetIcon = false) ∧
      (clickHandler bareMarker).2 = [.consoleError "Marker icon is undefined:"] :=
  ⟨rfl, click_without_icon_is_noop bareMarker rfl⟩

/-- Without an icon object a marker stays as it is under every number of clicks. -/
theorem clicks_without_icon (n : Nat) (layer : Marker)
    (h : layer.options.icon.truthy = false) : clicks n layer = layer := by
  induction n with
  | zero => rfl
  | succ n ih =>
    simp only [clicks]
    rw [clickHandler_falsy layer h]
    exact ih

/-- Claim C4, as amended: for every marker whose icon is defined, after every
sequence of one or more clicks the icon is still defined and its colour is one of
the two values red and green; a marker whose colour is red or green has a colour in
{red, green} after every sequence of clicks, the empty one included; and the toggle
is total on defined icons: one click yields a defined colour in {red, green}. -/
theorem toggle_colour_invariant (layer : Marker) (currentIcon : Icon)
    (h : layer.options.icon = .obj currentIcon) :
    (∀ n : Nat, (∃ i, (clicks (n + 1) layer).options.icon = .obj i) ∧
      ((clicks (n + 1) layer).markerColor = .str "red" ∨
        (clicks (n + 1) layer).markerColor = .str "green")) ∧
    ((layer.markerColor = .str "red" ∨ layer.markerColor = .str "green") →
      ∀ n : Nat, (clicks n layer).markerColor = .str "red" ∨
        (clicks n layer).markerColor = .str "green") ∧
    (∃ c : String, (clickHandler layer).1.markerColor = .str c ∧
      (c = "red" ∨ c = "green")) := by
  refine ⟨fun n => clicks_succ_colour n layer currentIcon h, ?_, ?_⟩
  · intro hc n
    cases n with
    | zero => exact hc
    | succ n => exact (clicks_succ_colour n layer currentIcon h).2
  · exact ⟨newColor currentIcon, markerColor_clickHandler layer currentIcon h,
      newColor_mem currentIcon⟩

/-- Instance at the blue marker: from the first click on the colour is red or green. -/
theorem toggle_colour_invariant_witness :
    blueMarker.options.icon = .obj blueIcon ∧
    ((∀ n : Nat, (∃ i, (clicks (n + 1) blueMarker).options.icon = .obj i) ∧
      ((clicks (n + 1) blueMarker).markerColor = .str "red" ∨
        (clicks (n + 1) blueMarker).markerColor = .str "green")) ∧
    ((blueMarker.markerColor = .str "red" ∨ blueMarker.markerColor = .str "green") →
      ∀ n : Nat, (clicks n blueMarker).markerColor = .str "red" ∨
        (clicks n blueMarker).markerColor = .str "green") ∧
    (∃ c : String, (clickHandler blueMarker).1.markerColor = .str c ∧
      (c = "red" ∨ c = "green"))) :=
  ⟨rfl, toggle_colour_invariant blueMarker blueIcon rfl⟩

/-- The colour is not always red or green: a marker without an icon has, after one click (and
after three), a colour that is neither red nor green, and the blue marker has the
colour blue before its first click. -/
theorem colour_not_always_red_or_green :
    ((clicks 1 bareMarker).markerColor ≠ .str "red" ∧
      (clicks 1 bareMarker).markerColor ≠ .str "green") ∧
    ((clicks 3 bareMarker).markerColor ≠ .str "red" ∧
      (clicks 3 bareMarker).markerColor ≠ .str "green") ∧
    ((clicks 0 blueMarker).markerColor ≠ .str "red" ∧
      (clicks 0 blueMarker).markerColor ≠ .str "green") := by
  rw [clicks_without_icon 1 bareMarker rfl, clicks_without_icon 3 bareMarker rfl]
  simp [clicks, bareMarker, blueMarker, blueIcon, Marker.markerColor, awesomeMarkersIcon]

/-! ## The readiness poll -/

/-- While `myMap` is unavailable the poll stays in its initial state. -/
theorem runTicks_unavailable (env : Nat → MyMap) (n : Nat)
    (h : ∀ t, t < n → (env t).available = false) : runTicks env n = WaiterState.init := by
  induction n with
  | zero => rfl
  | succ n ih =>
    have hprev := ih fun t ht => h t (Nat.lt_succ_of_lt ht)
    have hn := h n (Nat.lt_succ_self n)
    simp only [runTicks, hprev]
    cases he : env n with
    | undefined => rfl
    | null => rfl
    | inst m => rw [he] at hn; simp [MyMap.available] at hn

/-- A cancelled poll does not change the state any more. -/
theorem tick_inactive (s : WaiterState) (myMap : MyMap) (h : s.intervalActive = false) :
    tick s myMap = s := by
  simp [tick, h]

/-- After its first successful check the poll has the same state at every later tick. -/
theorem runTicks_after_first (env : Nat → MyMap) (k : Nat) (m : LeafletMap)
    (hk : env k = .inst m) (hpre : ∀ t, t < k → (env t).available = false) (d : Nat) :
    runTicks env (k + 1 + d) =
      { intervalActive := false, wiringPasses := 1, listeners := wire m } := by
  induction d with
  | zero =>
    simp only [Nat.add_zero, runTicks, runTicks_unavailable env k hpre, hk]
    simp [tick, WaiterState.init]
  | succ d ih =>
    rw [← Nat.add_assoc]
    simp only [runTicks, ih]
    exact tick_inactive _ _ rfl

/-- The wiring pass gives a listener to the marker layers of the map and to nothing else. -/
theorem mem_wire (m : LeafletMap) (id : Nat) :
    id ∈ wire m ↔ ∃ layer ∈ m.layers, layer.isMarker = true ∧ layer.id = id := by
  simp only [wire, List.mem_map, List.mem_filter]
  constructor
  · rintro ⟨layer, ⟨hmem, hmark⟩, hid⟩
    exact ⟨layer, hmem, hmark, hid⟩
  · rintro ⟨layer, hmem, hmark, hid⟩
    exact ⟨layer, ⟨hmem, hmark⟩, hid⟩

/-- Layers with distinct ids get at most one listener each from the wiring pass. -/
theorem nodup_wire (m : LeafletMap) (h : (m.layers.map fun layer => layer.id).Nodup) :
    (wire m).Nodup := by
  unfold wire
  exact h.sublist (List.filter_sublist m.layers |>.map _)

/-- Claim C5: in every run of the poll, if `myMap` is unavailable at every tick then
after every number of ticks no click listener is attached, no wiring pass has run
and the poll is still scheduled; if `myMap` is first available at tick `k`, as a map
`m` whose layers have distinct ids, then the poll is still scheduled and nothing is
attached before tick `k`, and after tick `k` and after every later tick the poll is
cancelled, exactly one wiring pass has run, and the layers with a listener are
exactly the marker layers of `m`, each with exactly one listener, whatever layers
the map has at later ticks. -/
theorem readinessWaiter_wires_once (env : Nat → MyMap) :
    ((∀ t, (env t).available = false) →
      ∀ n, (runTicks env n).listeners = [] ∧ (runTicks env n).wiringPasses = 0 ∧
        (runTicks env n).intervalActive = true) ∧
    (∀ (k : Nat) (m : LeafletMap), env k = .inst m →
      (∀ t, t < k → (env t).available = false) →
      (m.layers.map fun layer => layer.id).Nodup →
      ((runTicks env k).intervalActive = true ∧ (runTicks env k).listeners = []) ∧
      (runTicks env (k + 1)).intervalActive = false ∧
      ∀ n, k < n →
        (runTicks env n).intervalActive = false ∧
        (runTicks env n).wiringPasses = 1 ∧
        (∀ id, id ∈ (runTicks env n).listeners ↔
          ∃ layer ∈ m.layers, layer.isMarker = true ∧ layer.id = id) ∧
        (∀ id, id ∈ (runTicks env n).listeners → (runTicks env n).listeners.count id = 1)) := by
  refine ⟨?_, ?_⟩
  · intro h n
    rw [runTicks_unavailable env n fun t _ => h t]
    exact ⟨rfl, rfl, rfl⟩
  · intro k m hk hpre hids
    refine ⟨?_, ?_, ?_⟩
    · rw [runTicks_unavailable env k hpre]
      exact ⟨rfl, rfl⟩
    · rw [runTicks_after_first env k m hk hpre 0]
    · intro n hn
      obtain ⟨d, rfl⟩ : ∃ d, n = k + 1 + d := ⟨n - (k + 1), by omega⟩
      rw [runTicks_after_first env k m hk hpre d]
      refine ⟨rfl, rfl, fun id => mem_wire m id, fun id hid => ?_⟩
      exact List.count_eq_one_of_mem (nodup_wire m hids) hid

/-- Instance on `exampleEnv`: the poll is cancelled at tick 2, and after five ticks
one wiring pass has run and the listeners are those of the markers 1 and 3; the
marker 4, added at tick 3, and the tile layer 2 have none. -/
theorem readinessWaiter_wires_once_witness :
    (runTicks exampleEnv 2).intervalActive = true ∧
    (runTicks exampleEnv 3).intervalActive = false ∧
    (runTicks exampleEnv 5).wiringPasses = 1 ∧
    (∀ id, id ∈ (runTicks exampleEnv 5).listeners ↔
      ∃ layer ∈ [(⟨1, true⟩ : Layer), ⟨2, false⟩, ⟨3, true⟩],
        layer.isMarker = true ∧ layer.id = id) ∧
    (runTicks exampleEnv 5).listeners = [1, 3] := by
  have h := (readinessWaiter_wires_once exampleEnv).2 2
    { layers := [⟨1, true⟩, ⟨2, false⟩, ⟨3, true⟩] } rfl
    (by intro t ht; interval_cases t <;> rfl) (by decide)
  exact ⟨h.1.1, h.2.1, (h.2.2 5 (by decide)).2.1, (h.2.2 5 (by decide)).2.2.1, by decide⟩

/-! ## The single-shot colorer -/

/-- From the first click on the marker shows the green icon. -/
theorem greenClicks_succ (n : Nat) (layer : Marker) :
    (greenClicks (n + 1) layer).options.icon = .obj greenIcon := by
  induction n generalizing layer with
  | zero => rfl
  | succ n ih => exact ih (greenClickHandler layer).1

/-- Claim C9: for every marker and whatever its current icon, an absent icon
included, a click of the single-shot handler calls `setIcon` with the one fixed
green icon and leaves that icon on the marker; a second click changes nothing
(the transition is idempotent); after every sequence of one or more clicks the icon
is that fixed icon, so that no click restores an original icon other than it. -/
theorem green_click_one_way (layer : Marker) :
    (greenClickHandler layer).1.options.icon = .obj greenIcon ∧
    (greenClickHandler layer).2 = [.setIcon greenIcon] ∧
    (greenClickHandler (greenClickHandler layer).1).1 = (greenClickHandler layer).1 ∧
    (∀ n : Nat, (greenClicks (n + 1) layer).options.icon = .obj greenIcon) ∧
    (layer.options.icon ≠ .obj greenIcon →
      ∀ n : Nat, (greenClicks (n + 1) layer).options.icon ≠ layer.options.icon) := by
  refine ⟨rfl, rfl, rfl, fun n => greenClicks_succ n layer, fun h n => ?_⟩
  rw [greenClicks_succ n layer]
  exact fun heq => h heq.symm

/-- Instance at the blue marker and at a marker without an icon: after one click
both show the green icon, and after four clicks the blue marker is not blue again. -/
theorem green_click_one_way_witness :
    blueMarker.options.icon ≠ .obj greenIcon ∧
    (greenClickHandler bareMarker).1.options.icon = .obj greenIcon ∧
    (greenClickHandler blueMarker).1.options.icon = .obj greenIcon ∧
    (greenClicks 4 blueMarker).options.icon ≠ blueMarker.options.icon := by
  have hne : blueMarker.options.icon ≠ .obj greenIcon := by decide
  exact ⟨hne, (green_click_one_way bareMarker).1, (green_click_one_way blueMarker).1,
    (green_click_one_way blueMarker).2.2.2.2 hne 3⟩

/-! ## The ownership lookup panel -/

/-- The state after a fulfilled request holds the response under the key of the
coordinates, and nothing else. -/
theorem ownershipAfter_fulfilled {Coord : Type} (toStr : Coord → String)
    (get : String → AxiosReply) (ownership : Ownership) (lat lon : Coord)
    (data : OwnershipRecord) (h : get (requestUrl toStr lat lon) = .fulfilled data) :
    ownershipAfter ownership (fetchOwnership toStr get lat lon) =
      [(ownershipKey toStr lat lon, data)] := by
  simp [ownershipAfter, fetchOwnership, h]

/-- The owner paragraph under a state of one entry. -/
theorem ownerLine_single {Coord : Type} (toStr : Coord → String) (key : String)
    (data : OwnershipRecord) (lot : ParkingLot Coord) :
    ownerLine toStr [(key, data)] lot =
      if ownershipKey toStr lot.lat lot.lon = key then
        some ("Owner: " ++ orDefault data.owner "Unknown")
      else none := by
  unfold ownerLine
  by_cases hk : ownershipKey toStr lot.lat lot.lon = key
  · simp [List.lookup, hk]
  · have hb : (ownershipKey toStr lot.lat lot.lon == key) = false := by simpa using hk
    simp [List.lookup, hb, hk]

/-- Claim C6, as amended: for every list of parking lots and every lot in it with
coordinates (lat, lon), after `fetchOwnership(lat, lon)` completes with the response
body `{owner: o}`, `o` a non-empty string, the response is stored under the key of
lat and lon joined by a comma, the popup of that lot's marker renders the line
"Owner: o", and so does the popup of every marker of the list with the same key,
while the popup of no marker of the list with a different key renders an owner
line. -/
theorem lookup_renders_owner {Coord : Type} (toStr : Coord → String)
    (get : String → AxiosReply) (ownership : Ownership)
    (parkingLots : List (ParkingLot Coord)) (lot : ParkingLot Coord) (o : String)
    (hlot : lot ∈ parkingLots) (ho : o ≠ "")
    (hget : get (requestUrl toStr lot.lat lot.lon) = .fulfilled { owner := some o }) :
    (ownershipAfter ownership (fetchOwnership toStr get lot.lat lot.lon)).lookup
        (ownershipKey toStr lot.lat lot.lon) = some { owner := some o } ∧
    { name := lot.name, button := "Who Owns This?", ownerLine := some ("Owner: " ++ o) } ∈
      MapComponent toStr parkingLots
        (ownershipAfter ownership (fetchOwnership toStr get lot.lat lot.lon)) ∧
    (∀ other ∈ parkingLots,
      ownershipKey toStr other.lat other.lon = ownershipKey toStr lot.lat lot.lon →
      ownerLine toStr (ownershipAfter ownership (fetchOwnership toStr get lot.lat lot.lon))
        other = some ("Owner: " ++ o)) ∧
    (∀ other ∈ parkingLots,
      ownershipKey toStr other.lat other.lon ≠ ownershipKey toStr lot.lat lot.lon →
      ownerLine toStr (ownershipAfter ownership (fetchOwnership toStr get lot.lat lot.lon))
        other = none) := by
  rw [ownershipAfter_fulfilled toStr get ownership lot.lat lot.lon _ hget]
  have hown : orDefault (some o) "Unknown" = o := by simp [orDefault, ho]
  refine ⟨by simp [List.lookup], ?_, ?_, ?_⟩
  · simp only [MapComponent, List.mem_map]
    refine ⟨lot, hlot, ?_⟩
    rw [ownerLine_single, if_pos rfl, hown]
  · intro other _ hkey
    rw [ownerLine_single, if_pos hkey, hown]
  · intro other _ hkey
    rw [ownerLine_single, if_neg hkey]

/-- Instance on the lots A and C, of different coordinates: after the lookup for lot
A its popup shows the owner and the popup of lot C shows no owner line. -/
theorem lookup_renders_owner_witness :
    ownerLine intToStr
        (ownershipAfter [] (fetchOwnership intToStr (replyWith { owner := some "City of LA" })
          lotA.lat lotA.lon)) lotA = some "Owner: City of LA" ∧
    ownerLine intToStr
        (ownershipAfter [] (fetchOwnership intToStr (replyWith { owner := some "City of LA" })
          lotA.lat lotA.lon)) lotC = none := by
  have h := lookup_renders_owner intToStr (replyWith { owner := some "City of LA" }) []
    [lotA, lotC] lotA "City of LA" (by simp) (by decide) rfl
  exact ⟨h.2.2.1 lotA (by simp) rfl, h.2.2.2 lotC (by simp) (by decide)⟩

/-- Another marker can render the owner line: lot B is another marker of the list than lot A, and
after the lookup for lot A with the response `{owner: "City of LA"}` the popup of
lot B renders the owner line too. -/
theorem lookup_renders_owner_on_other_marker :
    lotA ∈ [lotA, lotB] ∧ lotB ∈ [lotA, lotB] ∧ lotB ≠ lotA ∧
    ownerLine intToStr
        (ownershipAfter [] (fetchOwnership intToStr (replyWith { owner := some "City of LA" })
          lotA.lat lotA.lon)) lotB = some "Owner: City of LA" ∧
    MapComponent intToStr [lotA, lotB]
        (ownershipAfter [] (fetchOwnership intToStr (replyWith { owner := some "City of LA" })
          lotA.lat lotA.lon)) =
      [{ name := "Lot A", button := "Who Owns This?", ownerLine := some "Owner: City of LA" },
        { name := "Lot B", button := "Who Owns This?", ownerLine := some "Owner: City of LA" }] := by
  decide

/-- Claim C7, as amended: for every lot whose key has a value in the ownership
state, the popup renders an owner line whose text is the value's owner field when
that field is present and not the empty string, and the literal "Unknown" when the
field is absent or is the empty string; in particular, for every successful lookup
whose response body omits owner, the popup renders "Owner: Unknown". -/
theorem owner_line_text {Coord : Type} (toStr : Coord → String) (ownership : Ownership)
    (lot : ParkingLot Coord) (record : OwnershipRecord)
    (h : ownership.lookup (ownershipKey toStr lot.lat lot.lon) = some record) :
    (∀ s, record.owner = some s → s ≠ "" →
      ownerLine toStr ownership lot = some ("Owner: " ++ s)) ∧
    (record.owner = none → ownerLine toStr ownership lot = some "Owner: Unknown") ∧
    (record.owner = some "" → ownerLine toStr ownership lot = some "Owner: Unknown") ∧
    (∀ (get : String → AxiosReply) (prior : Ownership),
      get (requestUrl toStr lot.lat lot.lon) = .fulfilled { owner := none } →
      ownerLine toStr (ownershipAfter prior (fetchOwnership toStr get lot.lat lot.lon)) lot =
        some "Owner: Unknown") := by
  refine ⟨?_, ?_, ?_, ?_⟩
  · intro s hs hne
    simp [ownerLine, h, hs, orDefault, hne]
  · intro hs
    simp only [ownerLine, h, hs, orDefault]
    rfl
  · intro hs
    simp only [ownerLine, h, hs, orDefault]
    rfl
  · intro get prior hget
    rw [ownershipAfter_fulfilled toStr get prior lot.lat lot.lon _ hget, ownerLine_single,
      if_pos rfl]
    rfl

/-- Instance on lot A: with an owner the line shows it, and after a lookup whose
response omits owner the line is "Owner: Unknown". -/
theorem owner_line_text_witness :
    ownerLine intToStr [("34,-118", { owner := some "City of LA" })] lotA =
      some "Owner: City of LA" ∧
    ownerLine intToStr
      (ownershipAfter [] (fetchOwnership intToStr (replyWith { owner := none })
        lotA.lat lotA.lon)) lotA = some "Owner: Unknown" := by
  have h := owner_line_text intToStr [("34,-118", { owner := some "City of LA" })] lotA
    { owner := some "City of LA" } (by decide)
  exact ⟨h.1 "City of LA" rfl (by decide), h.2.2.2 (replyWith { owner := none }) [] rfl⟩

/-- A present owner field is not always shown: the key of lot A has a value whose owner field is
present, as the empty string, and the popup renders "Owner: Unknown" and not the
owner field; the same holds after a lookup whose response is `{owner: ""}`. -/
theorem owner_line_empty_owner :
    List.lookup (ownershipKey intToStr lotA.lat lotA.lon)
      [("34,-118", ({ owner := some "" } : OwnershipRecord))] = some { owner := some "" } ∧
    ownerLine intToStr [("34,-118", { owner := some "" })] lotA = some "Owner: Unknown" ∧
    ownerLine intToStr [("34,-118", { owner := some "" })] lotA ≠ some ("Owner: " ++ "") ∧
    ownerLine intToStr
      (ownershipAfter [] (fetchOwnership intToStr (replyWith { owner := some "" })
        lotA.lat lotA.lon)) lotA = some "Owner: Unknown" := by
  decide

/-- Claim C8: for every ownership state and every (lat, lon), if the request issued
by `fetchOwnership(lat, lon)` is rejected, then `setOwnership` is not called, the
promise of `fetchOwnership` is rejected with the same reason, the ownership state
after the call equals the state before it, and every popup renders what it rendered
before, its owner line included. -/
theorem rejected_lookup_keeps_state {Coord : Type} (toStr : Coord → String)
    (get : String → AxiosReply) (ownership : Ownership) (lat lon : Coord) (reason : String)
    (h : get (requestUrl toStr lat lon) = .rejected reason) :
    (fetchOwnership toStr get lat lon).setOwnershipCalls = [] ∧
    (fetchOwnership toStr get lat lon).rejection = some reason ∧
    ownershipAfter ownership (fetchOwnership toStr get lat lon) = ownership ∧
    (∀ lot : ParkingLot Coord,
      ownerLine toStr (ownershipAfter ownership (fetchOwnership toStr get lat lon)) lot =
        ownerLine toStr ownership lot) ∧
    (∀ parkingLots : List (ParkingLot Coord),
      MapComponent toStr parkingLots
          (ownershipAfter ownership (fetchOwnership toStr get lat lon)) =
        MapComponent toStr parkingLots ownership) := by
  have hrun : fetchOwnership toStr get lat lon =
      { setOwnershipCalls := [], rejection := some reason } := by
    simp [fetchOwnership, h]
  have hst : ownershipAfter ownership (fetchOwnership toStr get lat lon) = ownership := by
    rw [hrun]
    rfl
  refine ⟨by rw [hrun], by rw [hrun], hst, fun lot => by rw [hst], fun lots => by rw [hst]⟩

/-- Instance on lot A: its owner line survives a failed lookup for lot C. -/
theorem rejected_lookup_keeps_state_witness :
    ownershipAfter [("34,-118", { owner := some "City of LA" })]
        (fetchOwnership intToStr replyFailure lotC.lat lotC.lon) =
      [("34,-118", { owner := some "City of LA" })] ∧
    ownerLine intToStr
        (ownershipAfter [("34,-118", { owner := some "City of LA" })]
          (fetchOwnership intToStr replyFailure lotC.lat lotC.lon)) lotA =
      some "Owner: City of LA" := by
  have h := rejected_lookup_keeps_state intToStr replyFailure
    [("34,-118", { owner := some "City of LA" })] lotC.lat lotC.lon "Network Error" rfl
  refine ⟨h.2.2.1, ?_⟩
  rw [h.2.2.2.1 lotA]
  decide

/-- Claim C10: `fetchOwnership` replaces the whole ownership state: for every prior
state and every successful `fetchOwnership(lat, lon)` with response `r`, the
resulting state has exactly one key, that of lat and lon joined by a comma, mapped
to `r`; every other key has no value any more, whatever was stored under it before,
and the popup of a lot with another key renders no owner line. -/
theorem fetch_replaces_whole_state {Coord : Type} (toStr : Coord → String)
    (get : String → AxiosReply) (ownership : Ownership) (lat lon : Coord)
    (r : OwnershipRecord) (h : get (requestUrl toStr lat lon) = .fulfilled r) :
    ownershipAfter ownership (fetchOwnership toStr get lat lon) =
      [(ownershipKey toStr lat lon, r)] ∧
    (ownershipAfter ownership (fetchOwnership toStr get lat lon)).map Prod.fst =
      [ownershipKey toStr lat lon] ∧
    (ownershipAfter ownership (fetchOwnership toStr get lat lon)).lookup
      (ownershipKey toStr lat lon) = some r ∧
    (∀ key : String, key ≠ ownershipKey toStr lat lon →
      (ownershipAfter ownership (fetchOwnership toStr get lat lon)).lookup key = none) ∧
    (∀ other : ParkingLot Coord,
      ownershipKey toStr other.lat other.lon ≠ ownershipKey toStr lat lon →
      ownerLine toStr (ownershipAfter ownership (fetchOwnership toStr get lat lon)) other =
        none) := by
  rw [ownershipAfter_fulfilled toStr get ownership lat lon r h]
  refine ⟨rfl, rfl, by simp [List.lookup], ?_, ?_⟩
  · intro key hkey
    have hb : (key == ownershipKey toStr lat lon) = false := by simpa using hkey
    simp [List.lookup, hb]
  · intro other hkey
    rw [ownerLine_single, if_neg hkey]

/-- Instance on the lots A and C: lot A shows its owner, and after a successful
lookup for lot C the state holds the key of lot C alone and lot A shows no owner
line any more. -/
theorem fetch_replaces_whole_state_witness :
    ownerLine intToStr [("34,-118", { owner := some "City of LA" })] lotA =
      some "Owner: City of LA" ∧
    ownershipAfter [("34,-118", { owner := some "City of LA" })]
        (fetchOwnership intToStr (replyWith { owner := some "Port Authority" })
          lotC.lat lotC.lon) =
      [("40,-74", { owner := some "Port Authority" })] ∧
    ownerLine intToStr
        (ownershipAfter [("34,-118", { owner := some "City of LA" })]
          (fetchOwnership intToStr (replyWith { owner := some "Port Authority" })
            lotC.lat lotC.lon)) lotA = none := by
  have h := fetch_replaces_whole_state intToStr (replyWith { owner := some "Port Authority" })
    [("34,-118", { owner := some "City of LA" })] lotC.lat lotC.lon
    { owner := some "Port Authority" } rfl
  exact ⟨by decide, h.1.trans (by decide), h.2.2.2.2 lotA (by decide)⟩

end TeslaChargerPlacement
